import Mathlib

/-!
Shallow embedding of `src/experiments/medical/ukbb/sem_vi/base_sem_experiment.py`
(deepscm). Tensors are modelled elementwise as functions `Nat → ℚ`, Python
dicts with string keys as association lists with Python update semantics,
pyro traces as maps from site name to a site record. External collaborators
(the abstract `guide`, `infer_exogeneous`, the pyro base ELBO estimator, the
SCM sampling primitives) are abstract parameters gathered in environment
structures; the file proves properties of the code of this repository for
every instantiation of those parameters.
-/

namespace DeepSCM

/-- A tensor, elementwise: index → rational value. Shape bookkeeping
(`unsqueeze`, `.float()`) is identity in this model. -/
abbrev Tensor : Type := Nat → ℚ

/-- The all-zeros tensor (used as a never-taken lookup default where the
preceding source assertion guarantees the key is present). -/
def tzero : Tensor := fun _ => 0

/-- A Python dict with string keys, in insertion order. -/
abbrev Dict (V : Type) : Type := List (String × V)

/-- Lookup `d[k]`: first (unique) binding of `k`. -/
def dictGet {V : Type} : Dict V → String → Option V
  | [], _ => none
  | (k1, v1) :: rest, k => if k1 == k then some v1 else dictGet rest k

/-- Assignment `d[k] = v`: replace the binding in place, else append. -/
def dictSet {V : Type} : Dict V → String → V → Dict V
  | [], k, v => [(k, v)]
  | (k1, v1) :: rest, k, v =>
      if k1 == k then (k1, v) :: rest else (k1, v1) :: dictSet rest k v

/-- Key list `d.keys()`. -/
def dictKeys {V : Type} (d : Dict V) : List String := d.map (fun p => p.1)

/-- A pyro trace site: we retain the summed log-probability, the only site
field the embedded code reads (`log_prob_sum`). -/
structure Site where
  log_prob_sum : ℚ

/-- A pyro execution trace: named mapping from site name to site record. -/
structure Trace where
  nodes : String → Site

/-- The two-slot storage `CustomELBO.trace_storage`
(`{model: ..., guide: ...}`), `None` before the first loss computation. -/
structure TraceStorage where
  model : Option Trace
  guide : Option Trace

namespace CustomELBO

/-- Embeds `CustomELBO.__init__` (lines 21-24): both storage slots start as `None`. -/
def init : TraceStorage := { model := none, guide := none }

/-- Embeds `CustomELBO._get_trace` (lines 26-32). `superGetTrace` is the
`(model_trace, guide_trace)` pair produced by the superclass
`TraceGraph_ELBO._get_trace`; the wrapper stores into `trace_storage` and
returns the pair unchanged. Line 29 stores `model_trace` under `model`;
line 30 stores `model_trace` (not `guide_trace`) under `guide`. -/
def get_trace (superGetTrace : Trace × Trace) (storage : TraceStorage) :
    TraceStorage × (Trace × Trace) :=
  let model_trace := superGetTrace.1
  let guide_trace := superGetTrace.2
  ({ model := some model_trace, guide := some model_trace },
   (model_trace, guide_trace))

/-- The per-particle trace pairs produced by the unwrapped
`TraceGraph_ELBO` estimator: particle `i` yields `base i`. -/
def baseParticleTraces (base : Nat → Trace × Trace) (n : Nat) :
    List (Trace × Trace) :=
  (List.range n).map base

/-- The per-particle trace pairs produced when `CustomELBO._get_trace`
wraps the same base estimator, threading `trace_storage` through the
particle loop; returns the final storage and the collected pairs. -/
def customParticleTraces (base : Nat → Trace × Trace) (storage : TraceStorage)
    (n : Nat) : TraceStorage × List (Trace × Trace) :=
  (List.range n).foldl
    (fun acc i =>
      let step := get_trace (base i) acc.1
      (step.1, acc.2 ++ [step.2]))
    (storage, [])

end CustomELBO

/-- Python exceptions arising in the embedded code. -/
inductive PyErr where
  | assertionError (msg : String)
  | attributeError (msg : String)
  | valueError (msg : String)
deriving DecidableEq

namespace SVIExperiment

/-- The metrics dict built by `SVIExperiment.get_trace_metrics`
(lines 220-235) from the retained model/guide traces, in source order.
Lines 229-230 read the `sex` site for the `ventricle_volume` and
`brain_volume` entries. -/
def trace_metrics (model guide : Trace) : Dict ℚ :=
  [("log p(x)", (model.nodes "x").log_prob_sum),
   ("log p(age)", (model.nodes "age").log_prob_sum),
   ("log p(sex)", (model.nodes "sex").log_prob_sum),
   ("log p(ventricle_volume)", (model.nodes "sex").log_prob_sum),
   ("log p(brain_volume)", (model.nodes "sex").log_prob_sum),
   ("log p(z) - log q(z)",
     (model.nodes "z").log_prob_sum - (guide.nodes "z").log_prob_sum),
   ("p(z)", (model.nodes "z").log_prob_sum),
   ("q(z)", (guide.nodes "z").log_prob_sum)]

/-- Embeds `get_trace_metrics`: reads `trace_storage[model]` and
`trace_storage[guide]`; dereferencing an empty (`None`) slot would fail,
modelled as `none`. -/
def get_trace_metrics (storage : TraceStorage) : Option (Dict ℚ) :=
  match storage.model, storage.guide with
  | some model, some guide => some (trace_metrics model guide)
  | _, _ => none

/-- The raw batch delivered by the data loader (keys `image`, `age`, `sex`,
`ventricle_volume`, `brain_volume`). -/
structure RawBatch where
  image : Tensor
  age : Tensor
  sex : Tensor
  ventricle_volume : Tensor
  brain_volume : Tensor

/-- Embeds `SVIExperiment.prep_batch` (lines 237-248): pixel scaling by 255, a
dequantization-noise draw added to `x` (the `torch.rand_like` draw is
the `noise` parameter), covariates passed through (`unsqueeze`/`.float()`
are shape/dtype identities here). -/
def prep_batch (noise : Tensor) (batch : RawBatch) : Dict Tensor :=
  let x : Tensor := fun i => batch.image i * 255 + noise i
  [("x", x), ("age", batch.age), ("sex", batch.sex),
   ("ventricle_volume", batch.ventricle_volume),
   ("brain_volume", batch.brain_volume)]

/-- Abstract pyro `SVI` environment: one ELBO evaluation over the
conditioned model and guide on a prepared batch produces a model trace, a
guide trace, and a scalar loss (`none` models NaN); a gradient step updates
the parameter map. Both are external (pyro + the concrete networks). -/
structure SVIEnv where
  runLoss : Dict Tensor → Trace × Trace × Option ℚ
  updateParams : (String → ℚ) → Dict Tensor → (String → ℚ)

/-- State owned by the SVI driver: trainable parameters plus the
`CustomELBO` trace storage. -/
structure SVIState where
  params : String → ℚ
  storage : TraceStorage

/-- Embeds `self.svi.step(**batch)`: computes the loss (traces recorded through
`CustomELBO._get_trace`) and applies one parameter update. -/
def sviStep (env : SVIEnv) (s : SVIState) (batch : Dict Tensor) :
    SVIState × Option ℚ :=
  let r := env.runLoss batch
  let rec_ := CustomELBO.get_trace (r.1, r.2.1) s.storage
  ({ params := env.updateParams s.params batch, storage := rec_.1 }, r.2.2)

/-- Embeds `self.svi.evaluate_loss(**batch)`: computes the loss (traces recorded
through `CustomELBO._get_trace`) without any parameter update. -/
def sviEvaluateLoss (env : SVIEnv) (s : SVIState) (batch : Dict Tensor) :
    SVIState × Option ℚ :=
  let r := env.runLoss batch
  let rec_ := CustomELBO.get_trace (r.1, r.2.1) s.storage
  ({ s with storage := rec_.1 }, r.2.2)

/-- Experiment state: the SVI state plus the texts logged to the
experiment tracker (`self.logger.experiment.add_text`). -/
structure ExpState where
  svi : SVIState
  logged : List String

/-- Rendering of a metrics dict into log/exception texts. -/
def metricsText (m : Dict ℚ) : String :=
  String.intercalate ", " (m.map (fun p => p.1 ++ " = " ++ toString p.2))

/-- The result mapping returned by a successful `training_step`:
`{loss: ..., log: tensorboard_logs}`. -/
structure TrainResult where
  loss : ℚ
  log : Dict ℚ
deriving DecidableEq

/-- Embeds `SVIExperiment.training_step` (lines 250-268): prepare the batch, take
one SVI step, extract trace metrics; on a NaN loss, first log the metrics
to the tracker (line 262) and then raise `ValueError` (line 263); otherwise
return `{loss: loss, log: {train/...: metric, train/loss: loss}}`. -/
def training_step (env : SVIEnv) (noise : Tensor) (current_epoch : Nat)
    (s : ExpState) (batch : RawBatch) : ExpState × Except PyErr TrainResult :=
  let pbatch := prep_batch noise batch
  let stepped := sviStep env s.svi pbatch
  match get_trace_metrics stepped.1.storage with
  | none =>
      ({ s with svi := stepped.1 },
       Except.error (PyErr.attributeError "NoneType object has no attribute nodes"))
  | some metrics =>
      match stepped.2 with
      | none =>
          ({ svi := stepped.1,
             logged := s.logged ++
               ["nand at " ++ toString current_epoch ++ ": " ++ metricsText metrics] },
           Except.error (PyErr.valueError
             ("loss went to nan with metrics: " ++ metricsText metrics)))
      | some loss =>
          ({ s with svi := stepped.1 },
           Except.ok
             { loss := loss,
               log := (metrics.map (fun p => ("train/" ++ p.1, p.2))) ++
                 [("train/loss", loss)] })

/-- Embeds `SVIExperiment.validation_step` (lines 270-277): prepare the batch,
evaluate the loss without a parameter update, and return
`{loss: loss, **metrics}`. -/
def validation_step (env : SVIEnv) (noise : Tensor) (s : ExpState)
    (batch : RawBatch) : ExpState × Except PyErr (Dict (Option ℚ)) :=
  let pbatch := prep_batch noise batch
  let evaluated := sviEvaluateLoss env s.svi pbatch
  match get_trace_metrics evaluated.1.storage with
  | none =>
      ({ s with svi := evaluated.1 },
       Except.error (PyErr.attributeError "NoneType object has no attribute nodes"))
  | some metrics =>
      ({ s with svi := evaluated.1 },
       Except.ok (("loss", evaluated.2) :: metrics.map (fun p => (p.1, some p.2))))

/-- Embeds `SVIExperiment.test_step` (lines 279-286): textually identical body to
`validation_step`. -/
def test_step (env : SVIEnv) (noise : Tensor) (s : ExpState)
    (batch : RawBatch) : ExpState × Except PyErr (Dict (Option ℚ)) :=
  let pbatch := prep_batch noise batch
  let evaluated := sviEvaluateLoss env s.svi pbatch
  match get_trace_metrics evaluated.1.storage with
  | none =>
      ({ s with svi := evaluated.1 },
       Except.error (PyErr.attributeError "NoneType object has no attribute nodes"))
  | some metrics =>
      ({ s with svi := evaluated.1 },
       Except.ok (("loss", evaluated.2) :: metrics.map (fun p => (p.1, some p.2))))

end SVIExperiment

namespace BaseVISEM

/-- Embeds `_required_data` (lines 89 and 114). -/
def required_data : List String :=
  ["x", "sex", "age", "ventricle_volume", "brain_volume"]

/-- The `set(obs.keys()) == set(_required_data)` comparison: equality of
key sets. -/
def keySetMatches (ks : List String) : Bool :=
  required_data.all (fun k => ks.contains k) &&
    ks.all (fun k => required_data.contains k)

/-- The assertion message built by Python format from `got:` and the key tuple, naming the
offending key set. -/
def assertMsg {V : Type} (obs : Dict V) : String :=
  "got: (" ++ String.intercalate ", " (dictKeys obs) ++ ")"

/-- Mean over a stack of tensors, elementwise:
`torch.stack(ts).mean(0)`. -/
def stackMean (ts : List Tensor) : Tensor :=
  fun i => (ts.map (fun t => t i)).sum / (ts.length : ℚ)

/-- The tuple returned by `self.sample_scm`, in the canonical order zipped
at line 131 with `(x, z, sex, age, ventricle_volume,
brain_volume)`. -/
structure ScmOut where
  x : Tensor
  z : Tensor
  sex : Tensor
  age : Tensor
  ventricle_volume : Tensor
  brain_volume : Tensor

/-- A record of one `pyro.poutine.do(pyro.poutine.condition(self.sample_scm,
data=exogeneous), data=condition)(n)` call: the conditioning
(exogenous-state) data, the intervention data, and the batch size. -/
structure ScmCall where
  data : Dict Tensor
  doData : Dict Tensor
  n : Nat

/-- External collaborators of `BaseVISEM`, abstract: the concrete guide
(`infer_z`, the guide-trace posterior over `z` and per-particle draws from
it), `infer_exogeneous` (defined in `base_experiment.py`, outside this
excerpt), the generative `sample` under conditioning (first returned
component, the image), the conditioned-and-intervened `sample_scm`, and the
batch-size accessor `.shape[0]`. `ZD` is the type of the posterior
distribution of the guide object over `z`. -/
structure SemEnv (ZD : Type) where
  infer_z : Dict Tensor → Tensor
  infer_exogeneous : Tensor → Dict Tensor → Dict Tensor
  guide_z_dist : Dict Tensor → ZD
  draw : ZD → Nat → Tensor
  sample_cond : Dict Tensor → Nat → Tensor
  sample_scm : Dict Tensor → Dict Tensor → Nat → ScmOut
  shape0 : Tensor → Nat

variable {ZD : Type}

/-- Embeds `BaseVISEM.infer` (lines 87-97). Returns the result together with the
number of guide executions performed (`0` when the assertion fails before
any inference runs). -/
def infer (env : SemEnv ZD) (obs : Dict Tensor) :
    Except PyErr (Dict Tensor) × Nat :=
  if keySetMatches (dictKeys obs) then
    let z := env.infer_z obs
    let exogeneous := env.infer_exogeneous z obs
    (Except.ok (dictSet exogeneous "z" z), 1)
  else
    (Except.error (PyErr.assertionError (assertMsg obs)), 0)

/-- Embeds `BaseVISEM.reconstruct` (lines 99-110). Returns the mean
reconstruction, the number of guide-trace evaluations performed, and the
conditioning data of each decode call (`pyro.poutine.condition(self.sample,
data=...)`) in particle order. -/
def reconstruct (env : SemEnv ZD) (x age sex ventricle_volume brain_volume : Tensor)
    (num_particles : Nat) : Tensor × Nat × List (Dict Tensor) :=
  let obs : Dict Tensor :=
    [("x", x), ("sex", sex), ("age", age),
     ("ventricle_volume", ventricle_volume), ("brain_volume", brain_volume)]
  let z_dist := env.guide_z_dist obs
  let datas := (List.range num_particles).map (fun i =>
    [("sex", sex), ("age", age), ("ventricle_volume", ventricle_volume),
     ("brain_volume", brain_volume), ("z", env.draw z_dist i)])
  let recons := datas.map (fun d => env.sample_cond d (env.shape0 x))
  (stackMean recons, 1, datas)

/-- The exogenous-state mapping passed to the conditioned `sample_scm` for
particle `i` of `counterfactual` (lines 121-127): abducted noise, then
`exogeneous[z] = z`, then — only when `sex` is not named by the
intervention — `exogeneous[sex] = obs[sex]`. -/
def cfExo (env : SemEnv ZD) (obs : Dict Tensor) (z_dist : ZD)
    (cond : Dict Tensor) (i : Nat) : Dict Tensor :=
  let z := env.draw z_dist i
  let exogeneous := dictSet (env.infer_exogeneous z obs) "z" z
  if (dictKeys cond).contains "sex" then exogeneous
  else dictSet exogeneous "sex" ((dictGet obs "sex").getD tzero)

/-- The body of the particle loop of `counterfactual` (lines 120-130),
from particle index `i` for `n` more particles: yields the `sample_scm`
outputs and the call log, or the `AttributeError` raised by
`condition.keys()` when `condition` is `None`. -/
def cfLoop (env : SemEnv ZD) (obs : Dict Tensor) (z_dist : ZD)
    (cond : Option (Dict Tensor)) (i : Nat) :
    Nat → Except PyErr (List ScmOut × List ScmCall)
  | 0 => Except.ok ([], [])
  | n + 1 =>
    match cond with
    | none =>
        Except.error (PyErr.attributeError
          "NoneType object has no attribute keys")
    | some c =>
        let exogeneous := cfExo env obs z_dist c i
        let bs := env.shape0 ((dictGet obs "x").getD tzero)
        let counter := env.sample_scm exogeneous c bs
        match cfLoop env obs z_dist cond (i + 1) n with
        | Except.ok rest => Except.ok (counter :: rest.1,
            { data := exogeneous, doData := c, n := bs } :: rest.2)
        | Except.error e => Except.error e

/-- Embeds `BaseVISEM.counterfactual` (lines 112-131). Returns the result dict of
particle-mean components paired with the `sample_scm` call log, together
with the number of guide-trace evaluations performed (`0` when the
assertion fails). -/
def counterfactual (env : SemEnv ZD) (obs : Dict Tensor)
    (cond : Option (Dict Tensor)) (num_particles : Nat) :
    Except PyErr (Dict Tensor × List ScmCall) × Nat :=
  if keySetMatches (dictKeys obs) then
    let z_dist := env.guide_z_dist obs
    match cfLoop env obs z_dist cond 0 num_particles with
    | Except.error e => (Except.error e, 1)
    | Except.ok r =>
        (Except.ok
          ([("x", stackMean (r.1.map (fun o => o.x))),
            ("z", stackMean (r.1.map (fun o => o.z))),
            ("sex", stackMean (r.1.map (fun o => o.sex))),
            ("age", stackMean (r.1.map (fun o => o.age))),
            ("ventricle_volume", stackMean (r.1.map (fun o => o.ventricle_volume))),
            ("brain_volume", stackMean (r.1.map (fun o => o.brain_volume)))],
           r.2), 1)
  else
    (Except.error (PyErr.assertionError (assertMsg obs)), 0)

end BaseVISEM

/-! Concrete instances used to evaluate the embedded code at specific
inputs. -/

/-- A trace whose every site has summed log-probability `0`. -/
def trA : Trace := { nodes := fun _ => { log_prob_sum := 0 } }

/-- A trace whose every site has summed log-probability `1`. -/
def trB : Trace := { nodes := fun _ => { log_prob_sum := 1 } }

/-- A trace whose `sex`, `ventricle_volume` and `brain_volume` sites carry
three distinct summed log-probabilities (5, 7, 11). -/
def trM : Trace :=
  { nodes := fun k =>
      if k == "sex" then { log_prob_sum := 5 }
      else if k == "ventricle_volume" then { log_prob_sum := 7 }
      else if k == "brain_volume" then { log_prob_sum := 11 }
      else { log_prob_sum := 0 } }

/-- A concrete SEM environment with trivial collaborators. -/
def wEnv : BaseVISEM.SemEnv Unit :=
  { infer_z := fun _ => tzero
    infer_exogeneous := fun _ _ => []
    guide_z_dist := fun _ => ()
    draw := fun _ _ => tzero
    sample_cond := fun _ _ => tzero
    sample_scm := fun _ _ _ =>
      { x := tzero, z := tzero, sex := tzero, age := tzero,
        ventricle_volume := tzero, brain_volume := tzero }
    shape0 := fun _ => 1 }

/-- An observation mapping with a wrong key set. -/
def wObsBad : Dict Tensor := [("x", tzero)]

/-- An observation mapping with exactly the five required keys. -/
def wObsGood : Dict Tensor :=
  [("x", tzero), ("sex", fun _ => 9), ("age", tzero),
   ("ventricle_volume", tzero), ("brain_volume", tzero)]

/-- An intervention mapping not naming `sex`. -/
def wCondNoSex : Dict Tensor := [("age", tzero)]

/-- An intervention mapping naming `sex`. -/
def wCondSex : Dict Tensor := [("sex", tzero)]

/-- A concrete SVI environment whose loss computation yields a NaN loss. -/
def wEnvNan : SVIExperiment.SVIEnv :=
  { runLoss := fun _ => (trA, trB, none), updateParams := fun p _ => p }

/-- A concrete SVI environment whose loss computation yields the loss `3`. -/
def wEnvOk : SVIExperiment.SVIEnv :=
  { runLoss := fun _ => (trA, trB, some 3), updateParams := fun p _ => p }

/-- A concrete experiment state with empty trace storage and log. -/
def wState : SVIExperiment.ExpState :=
  { svi := { params := fun _ => 0, storage := CustomELBO.init }, logged := [] }

/-- A concrete raw batch. -/
def wBatch : SVIExperiment.RawBatch :=
  { image := tzero, age := tzero, sex := tzero,
    ventricle_volume := tzero, brain_volume := tzero }

/-! Helper lemmas. -/

/-- Looking up a key right after assigning it yields the assigned value. -/
theorem dictGet_dictSet_self {V : Type} (d : Dict V) (k : String) (v : V) :
    dictGet (dictSet d k v) k = some v := by
  induction d with
  | nil => simp [dictSet, dictGet]
  | cons hd tl ih =>
      obtain ⟨k1, v1⟩ := hd
      by_cases h : k1 == k
      · simp [dictSet, dictGet, h]
      · simp only [dictSet, dictGet, h, Bool.false_eq_true, if_false]
        exact ih

/-- A key listed in `d.keys()` has a binding. -/
theorem contains_dictGet {V : Type} (d : Dict V) (k : String)
    (h : (dictKeys d).contains k = true) : ∃ v, dictGet d k = some v := by
  have hm : k ∈ dictKeys d := by simpa using h
  clear h
  induction d with
  | nil => simp [dictKeys] at hm
  | cons hd tl ih =>
      obtain ⟨k1, v1⟩ := hd
      by_cases hk : k1 = k
      · exact ⟨v1, by simp [dictGet, hk]⟩
      · have hm2 : k ∈ dictKeys tl := by
          simp only [dictKeys, List.map_cons, List.mem_cons] at hm
          exact hm.resolve_left (fun he => hk he.symm)
        obtain ⟨v, hv⟩ := ih hm2
        exact ⟨v, by simp [dictGet, hk, hv]⟩

/-- A matching observation key set contains every required key. -/
theorem keySetMatches_contains (ks : List String)
    (h : BaseVISEM.keySetMatches ks = true) (k : String)
    (hk : k ∈ BaseVISEM.required_data) : ks.contains k = true := by
  have h1 := (Bool.and_eq_true _ _).mp h |>.1
  exact (List.all_eq_true.mp h1) k hk

/-- Collected trace pairs of the wrapped particle loop, generalized
accumulator form. -/
theorem customParticleTraces_foldl_aux (base : Nat → Trace × Trace) :
    ∀ (l : List Nat) (storage : TraceStorage) (acc : List (Trace × Trace)),
      (l.foldl
        (fun acc2 i =>
          let step := CustomELBO.get_trace (base i) acc2.1
          (step.1, acc2.2 ++ [step.2]))
        (storage, acc)).2 = acc ++ l.map base := by
  intro l
  induction l with
  | nil => intro storage acc; simp
  | cons a t ih =>
      intro storage acc
      simp only [List.foldl_cons, List.map_cons]
      rw [ih]
      simp [CustomELBO.get_trace]

/-- The wrapper produces exactly the trace pairs of the base estimator. -/
theorem customParticleTraces_eq_base (base : Nat → Trace × Trace)
    (storage : TraceStorage) (n : Nat) :
    (CustomELBO.customParticleTraces base storage n).2 =
      CustomELBO.baseParticleTraces base n := by
  unfold CustomELBO.customParticleTraces CustomELBO.baseParticleTraces
  simpa using customParticleTraces_foldl_aux base (List.range n) storage []

/-- The particle loop of `counterfactual` never raises an
`AssertionError`: its only error is the `AttributeError` from a `None`
condition. -/
theorem cfLoop_no_assert {ZD : Type} (env : BaseVISEM.SemEnv ZD)
    (obs : Dict Tensor) (zd : ZD) (cond : Option (Dict Tensor)) :
    ∀ (n i : Nat) (m : String),
      BaseVISEM.cfLoop env obs zd cond i n ≠
        Except.error (PyErr.assertionError m) := by
  intro n
  induction n with
  | zero => intro i m h; simp [BaseVISEM.cfLoop] at h
  | succ k ih =>
      intro i m h
      match cond with
      | none => simp [BaseVISEM.cfLoop] at h
      | some c =>
          simp only [BaseVISEM.cfLoop] at h
          revert h
          cases hrec : BaseVISEM.cfLoop env obs zd (some c) (i + 1) k with
          | ok rest => intro h; simp at h
          | error e =>
              intro h
              simp only [Except.error.injEq] at h
              exact ih (i + 1) m (h ▸ hrec)

/-- With an explicit (non-`None`) intervention mapping, the particle loop
of `counterfactual` always succeeds. -/
theorem cfLoop_some_ok {ZD : Type} (env : BaseVISEM.SemEnv ZD)
    (obs : Dict Tensor) (zd : ZD) (c : Dict Tensor) :
    ∀ (n i : Nat), ∃ out,
      BaseVISEM.cfLoop env obs zd (some c) i n = Except.ok out := by
  intro n
  induction n with
  | zero => intro i; exact ⟨([], []), rfl⟩
  | succ k ih =>
      intro i
      obtain ⟨out, hout⟩ := ih (i + 1)
      refine ⟨(env.sample_scm (BaseVISEM.cfExo env obs zd c i) c
          (env.shape0 ((dictGet obs "x").getD tzero)) :: out.1,
        { data := BaseVISEM.cfExo env obs zd c i, doData := c,
          n := env.shape0 ((dictGet obs "x").getD tzero) } :: out.2), ?_⟩
      simp only [BaseVISEM.cfLoop, hout]

/-- Every `sample_scm` call recorded by the particle loop carries the
intervention mapping as its do-data and, as conditioning data, the
exogenous-state mapping `cfExo` of some particle index. -/
theorem cfLoop_calls {ZD : Type} (env : BaseVISEM.SemEnv ZD)
    (obs : Dict Tensor) (zd : ZD) (c : Dict Tensor) :
    ∀ (n i : Nat) (out : List BaseVISEM.ScmOut × List BaseVISEM.ScmCall),
      BaseVISEM.cfLoop env obs zd (some c) i n = Except.ok out →
      ∀ call ∈ out.2, call.doData = c ∧
        ∃ j, call.data = BaseVISEM.cfExo env obs zd c j := by
  intro n
  induction n with
  | zero =>
      intro i out h call hc
      simp only [BaseVISEM.cfLoop, Except.ok.injEq] at h
      rw [← h] at hc
      simp at hc
  | succ k ih =>
      intro i out h call hc
      simp only [BaseVISEM.cfLoop] at h
      revert h
      cases hrec : BaseVISEM.cfLoop env obs zd (some c) (i + 1) k with
      | error e => intro h; simp at h
      | ok rest =>
          intro h
          simp only [Except.ok.injEq] at h
          rw [← h] at hc
          simp only [List.mem_cons] at hc
          rcases hc with hc | hc
          · exact hc ▸ ⟨rfl, ⟨i, rfl⟩⟩
          · exact ih (i + 1) rest hrec call hc

/-! Claim theorems. -/

/-- Claim C1 (code bug): `CustomELBO._get_trace` is supposed to store the
freshly produced guide trace under the `guide` key of `trace_storage`,
but line 30 stores the model trace there: at a call whose model trace
(`trA`) and guide trace (`trB`) differ, the `guide` slot holds the model
trace and not the guide trace. -/
theorem get_trace_stores_model_trace_in_guide_slot :
    ((CustomELBO.get_trace (trA, trB) CustomELBO.init).1.guide = some trA) ∧
    ((CustomELBO.get_trace (trA, trB) CustomELBO.init).1.guide ≠ some trB) := by
  refine ⟨rfl, ?_⟩
  intro h
  have h1 : trA = trB := by
    have h0 : some trA = some trB := by
      simpa [CustomELBO.get_trace, CustomELBO.init] using h
    exact Option.some.inj h0
  have h2 := congrArg (fun t => (t.nodes "z").log_prob_sum) h1
  simp only [trA, trB] at h2
  norm_num at h2

/-- Claim C2 (code bug): in the metrics dict built by `get_trace_metrics`,
the `log p(ventricle_volume)` and `log p(brain_volume)` entries are
read from the `sex` site (value 5 on `trM`), not from the own
sites of those variables (values 7 and 11). -/
theorem trace_metrics_volume_entries_use_sex_site :
    dictGet (SVIExperiment.trace_metrics trM trM) "log p(ventricle_volume)" = some 5 ∧
    dictGet (SVIExperiment.trace_metrics trM trM) "log p(brain_volume)" = some 5 ∧
    (trM.nodes "ventricle_volume").log_prob_sum = 7 ∧
    (trM.nodes "brain_volume").log_prob_sum = 11 ∧
    (5 : ℚ) ≠ 7 ∧ (5 : ℚ) ≠ 11 := by
  refine ⟨rfl, rfl, rfl, rfl, by norm_num, by norm_num⟩

/-- Claim C3: after any loss computation through `CustomELBO` (a raw
`_get_trace` call, an SVI gradient step, or a loss evaluation), the
`guide` slot of `trace_storage` holds the same trace as the `model`
slot; consequently the metrics dict has `log p(z) - log q(z)` exactly
`0` and equal `p(z)`/`q(z)` entries. -/
theorem trace_storage_guide_aliases_model (pr : Trace × Trace)
    (st : TraceStorage) (env : SVIExperiment.SVIEnv)
    (s : SVIExperiment.SVIState) (batch : Dict Tensor) :
    ((CustomELBO.get_trace pr st).1.guide = (CustomELBO.get_trace pr st).1.model) ∧
    ((SVIExperiment.sviStep env s batch).1.storage.guide =
      (SVIExperiment.sviStep env s batch).1.storage.model) ∧
    ((SVIExperiment.sviEvaluateLoss env s batch).1.storage.guide =
      (SVIExperiment.sviEvaluateLoss env s batch).1.storage.model) ∧
    (SVIExperiment.get_trace_metrics (SVIExperiment.sviStep env s batch).1.storage =
      some (SVIExperiment.trace_metrics (env.runLoss batch).1 (env.runLoss batch).1)) ∧
    (dictGet (SVIExperiment.trace_metrics (env.runLoss batch).1 (env.runLoss batch).1)
        "log p(z) - log q(z)" = some 0) ∧
    (dictGet (SVIExperiment.trace_metrics (env.runLoss batch).1 (env.runLoss batch).1)
        "p(z)" =
      dictGet (SVIExperiment.trace_metrics (env.runLoss batch).1 (env.runLoss batch).1)
        "q(z)") := by
  refine ⟨rfl, rfl, rfl, rfl, ?_, ?_⟩
  · show dictGet (SVIExperiment.trace_metrics _ _) _ = _
    simp [SVIExperiment.trace_metrics, dictGet]
  · rfl

/-- Claim C9: for every base trace-pair producer, particle count, and every
loss/gradient functional of the produced trace pairs, the wrapped
`CustomELBO` estimator feeds the functional exactly the trace pairs the
unwrapped `TraceGraph_ELBO` estimator would produce, so the numeric loss
and gradient estimate are identical; the wrapper only records traces. -/
theorem customELBO_preserves_loss (base : Nat → Trace × Trace)
    (storage : TraceStorage) (n : Nat) (LG : Type)
    (lossFn : List (Trace × Trace) → LG) :
    lossFn (CustomELBO.customParticleTraces base storage n).2 =
      lossFn (CustomELBO.baseParticleTraces base n) := by
  rw [customParticleTraces_eq_base]

/-- Claim C4: for any observation mapping whose key set is not exactly
the five required keys, both `infer` and `counterfactual` fail at once
with an `AssertionError` whose message names the offending key set, before
the guide runs (guide-execution count 0); with exactly the five keys the
assertion passes in both. -/
theorem obs_key_assertion {ZD : Type} (env : BaseVISEM.SemEnv ZD)
    (obs : Dict Tensor) (cond : Option (Dict Tensor)) (n : Nat) :
    (BaseVISEM.keySetMatches (dictKeys obs) = false →
      BaseVISEM.infer env obs =
        (Except.error (PyErr.assertionError (BaseVISEM.assertMsg obs)), 0) ∧
      BaseVISEM.counterfactual env obs cond n =
        (Except.error (PyErr.assertionError (BaseVISEM.assertMsg obs)), 0)) ∧
    (BaseVISEM.keySetMatches (dictKeys obs) = true →
      (∃ r, (BaseVISEM.infer env obs).1 = Except.ok r) ∧
      (∀ m, (BaseVISEM.counterfactual env obs cond n).1 ≠
        Except.error (PyErr.assertionError m))) := by
  constructor
  · intro h
    constructor
    · simp [BaseVISEM.infer, h]
    · simp [BaseVISEM.counterfactual, h]
  · intro h
    constructor
    · exact ⟨dictSet (env.infer_exogeneous (env.infer_z obs) obs) "z"
        (env.infer_z obs), by simp [BaseVISEM.infer, h]⟩
    · intro m
      simp only [BaseVISEM.counterfactual, h, if_true]
      cases hrec : BaseVISEM.cfLoop env obs (env.guide_z_dist obs) cond 0 n with
      | error e =>
          simp only
          intro he
          simp only [Except.error.injEq] at he
          exact cfLoop_no_assert env obs (env.guide_z_dist obs) cond n 0 m (he ▸ hrec)
      | ok r => simp

/-- Claim C4 witness: with a one-key observation, `infer` and
`counterfactual` fail with the assertion error naming the key set and run
the guide zero times; with the five required keys, `infer` succeeds. -/
theorem obs_key_assertion_witness :
    BaseVISEM.infer wEnv wObsBad =
      (Except.error (PyErr.assertionError "got: (x)"), 0) ∧
    BaseVISEM.counterfactual wEnv wObsBad none 1 =
      (Except.error (PyErr.assertionError "got: (x)"), 0) ∧
    (∃ r, (BaseVISEM.infer wEnv wObsGood).1 = Except.ok r) := by
  have h1 := (obs_key_assertion wEnv wObsBad none 1).1 rfl
  have h2 := (obs_key_assertion wEnv wObsGood none 1).2 rfl
  exact ⟨h1.1, h1.2, h2.1⟩

/-- Claim C5: in `counterfactual` with a valid observation, the
conditioning data of every recorded `sample_scm` call is the per-particle
exogenous-state mapping `cfExo`, whose `sex` entry equals the original
observed sex whenever the intervention does not name `sex`; when the
intervention names `sex`, the mapping is exactly the abducted noise with
`z` set and no sex insertion. -/
theorem counterfactual_sex_forcefix {ZD : Type} (env : BaseVISEM.SemEnv ZD)
    (obs : Dict Tensor) (c : Dict Tensor) (n : Nat)
    (hobs : BaseVISEM.keySetMatches (dictKeys obs) = true) :
    (∀ r, (BaseVISEM.counterfactual env obs (some c) n).1 = Except.ok r →
      ∀ call ∈ r.2, call.doData = c ∧
        ∃ j, call.data = BaseVISEM.cfExo env obs (env.guide_z_dist obs) c j) ∧
    (∀ (zd : ZD) (j : Nat), (dictKeys c).contains "sex" = false →
      dictGet (BaseVISEM.cfExo env obs zd c j) "sex" = dictGet obs "sex") ∧
    (∀ (zd : ZD) (j : Nat), (dictKeys c).contains "sex" = true →
      BaseVISEM.cfExo env obs zd c j =
        dictSet (env.infer_exogeneous (env.draw zd j) obs) "z" (env.draw zd j)) := by
  refine ⟨?_, ?_, ?_⟩
  · intro r hr call hc
    revert hr
    simp only [BaseVISEM.counterfactual, hobs, if_true]
    cases hrec : BaseVISEM.cfLoop env obs (env.guide_z_dist obs) (some c) 0 n with
    | error e => intro hr; simp at hr
    | ok rr =>
        intro hr
        simp only [Except.ok.injEq] at hr
        have hcalls : call ∈ rr.2 := by rw [← hr] at hc; exact hc
        exact cfLoop_calls env obs (env.guide_z_dist obs) c n 0 rr hrec call hcalls
  · intro zd j h
    have hsex : (dictKeys obs).contains "sex" = true :=
      keySetMatches_contains (dictKeys obs) hobs "sex"
        (by simp [BaseVISEM.required_data])
    obtain ⟨v, hv⟩ := contains_dictGet obs "sex" hsex
    simp only [BaseVISEM.cfExo, h, Bool.false_eq_true, if_false]
    rw [dictGet_dictSet_self, hv]
    simp
  · intro zd j h
    have hm : "sex" ∈ dictKeys c := by simpa using h
    simp [BaseVISEM.cfExo, hm]

/-- Claim C5 witness: on concrete inputs, with an intervention not naming
`sex` the exogenous mapping passed to `sample_scm` carries the observed
sex value, and with an intervention naming `sex` it is exactly the
abducted mapping with `z` set. -/
theorem counterfactual_sex_forcefix_witness :
    dictGet (BaseVISEM.cfExo wEnv wObsGood () wCondNoSex 0) "sex" =
      dictGet wObsGood "sex" ∧
    BaseVISEM.cfExo wEnv wObsGood () wCondSex 0 =
      dictSet (wEnv.infer_exogeneous (wEnv.draw () 0) wObsGood) "z"
        (wEnv.draw () 0) := by
  have h1 := counterfactual_sex_forcefix wEnv wObsGood wCondNoSex 1 rfl
  have h2 := counterfactual_sex_forcefix wEnv wObsGood wCondSex 1 rfl
  exact ⟨h1.2.1 () 0 rfl, h2.2.2 () 0 rfl⟩

/-- Claim C6: for a valid five-key observation and at least one particle,
calling `counterfactual` with the defaulted `condition = None` raises an
`AttributeError` (from `None.keys()`), not an observation-mismatch
assertion and not an empty-intervention run; an explicit empty mapping
succeeds. -/
theorem counterfactual_none_condition_attribute_error {ZD : Type}
    (env : BaseVISEM.SemEnv ZD) (obs : Dict Tensor) (n : Nat)
    (hobs : BaseVISEM.keySetMatches (dictKeys obs) = true) (hn : 1 ≤ n) :
    (BaseVISEM.counterfactual env obs none n).1 =
      Except.error (PyErr.attributeError "NoneType object has no attribute keys") ∧
    (∃ r, (BaseVISEM.counterfactual env obs (some []) n).1 = Except.ok r) := by
  constructor
  · obtain ⟨m, rfl⟩ : ∃ m, n = m + 1 := ⟨n - 1, by omega⟩
    simp [BaseVISEM.counterfactual, hobs, BaseVISEM.cfLoop]
  · obtain ⟨out, hout⟩ :=
      cfLoop_some_ok env obs (env.guide_z_dist obs) [] n 0
    exact ⟨([("x", BaseVISEM.stackMean (out.1.map (fun o => o.x))),
        ("z", BaseVISEM.stackMean (out.1.map (fun o => o.z))),
        ("sex", BaseVISEM.stackMean (out.1.map (fun o => o.sex))),
        ("age", BaseVISEM.stackMean (out.1.map (fun o => o.age))),
        ("ventricle_volume",
          BaseVISEM.stackMean (out.1.map (fun o => o.ventricle_volume))),
        ("brain_volume",
          BaseVISEM.stackMean (out.1.map (fun o => o.brain_volume)))],
      out.2), by simp [BaseVISEM.counterfactual, hobs, hout]⟩

/-- Claim C6 witness: on a concrete valid observation with one particle,
the defaulted `None` condition yields the `AttributeError` and the
explicit empty mapping succeeds. -/
theorem counterfactual_none_condition_witness :
    (BaseVISEM.counterfactual wEnv wObsGood none 1).1 =
      Except.error (PyErr.attributeError "NoneType object has no attribute keys") ∧
    (∃ r, (BaseVISEM.counterfactual wEnv wObsGood (some []) 1).1 = Except.ok r) :=
  counterfactual_none_condition_attribute_error wEnv wObsGood 1 rfl (Nat.le_refl 1)

/-- Claim C7: in `training_step`, a NaN loss leads to the diagnostic
metrics being logged to the experiment tracker and a `ValueError` being
raised, so no result mapping is returned; a non-NaN loss yields the result
mapping with the loss and the per-site diagnostic metrics under
`train/`-prefixed keys. -/
theorem training_step_nan_handling (env : SVIExperiment.SVIEnv)
    (noise : Tensor) (epoch : Nat) (s : SVIExperiment.ExpState)
    (batch : SVIExperiment.RawBatch) :
    ((env.runLoss (SVIExperiment.prep_batch noise batch)).2.2 = none →
      (SVIExperiment.training_step env noise epoch s batch).2 =
        Except.error (PyErr.valueError ("loss went to nan with metrics: " ++
          SVIExperiment.metricsText (SVIExperiment.trace_metrics
            (env.runLoss (SVIExperiment.prep_batch noise batch)).1
            (env.runLoss (SVIExperiment.prep_batch noise batch)).1))) ∧
      (SVIExperiment.training_step env noise epoch s batch).1.logged =
        s.logged ++ ["nand at " ++ toString epoch ++ ": " ++
          SVIExperiment.metricsText (SVIExperiment.trace_metrics
            (env.runLoss (SVIExperiment.prep_batch noise batch)).1
            (env.runLoss (SVIExperiment.prep_batch noise batch)).1)]) ∧
    (∀ l, (env.runLoss (SVIExperiment.prep_batch noise batch)).2.2 = some l →
      (SVIExperiment.training_step env noise epoch s batch).2 =
        Except.ok
          { loss := l,
            log := ((SVIExperiment.trace_metrics
                (env.runLoss (SVIExperiment.prep_batch noise batch)).1
                (env.runLoss (SVIExperiment.prep_batch noise batch)).1).map
                (fun p => ("train/" ++ p.1, p.2))) ++ [("train/loss", l)] }) := by
  constructor
  · intro h
    constructor <;>
      simp [SVIExperiment.training_step, SVIExperiment.sviStep,
        CustomELBO.get_trace, SVIExperiment.get_trace_metrics, h]
  · intro l h
    simp [SVIExperiment.training_step, SVIExperiment.sviStep,
      CustomELBO.get_trace, SVIExperiment.get_trace_metrics, h]

/-- Claim C7 witness: a concrete NaN-loss environment leads to the logged
metrics text and the `ValueError`; a concrete loss of 3 is returned in the
result mapping. -/
theorem training_step_nan_handling_witness :
    (SVIExperiment.training_step wEnvNan tzero 0 wState wBatch).2 =
      Except.error (PyErr.valueError ("loss went to nan with metrics: " ++
        SVIExperiment.metricsText (SVIExperiment.trace_metrics trA trA))) ∧
    (SVIExperiment.training_step wEnvNan tzero 0 wState wBatch).1.logged =
      ["nand at 0: " ++
        SVIExperiment.metricsText (SVIExperiment.trace_metrics trA trA)] ∧
    (SVIExperiment.training_step wEnvOk tzero 0 wState wBatch).2 =
      Except.ok
        { loss := 3,
          log := ((SVIExperiment.trace_metrics trA trA).map
            (fun p => ("train/" ++ p.1, p.2))) ++ [("train/loss", 3)] } := by
  have h1 := (training_step_nan_handling wEnvNan tzero 0 wState wBatch).1 rfl
  have h2 := (training_step_nan_handling wEnvOk tzero 0 wState wBatch).2 3 rfl
  exact ⟨h1.1, by simpa [wState] using h1.2, h2⟩

/-- Averaging a singleton stack returns the single tensor. -/
theorem stackMean_singleton (t : Tensor) : BaseVISEM.stackMean [t] = t := by
  funext i
  simp [BaseVISEM.stackMean]

/-- Claim C8: `reconstruct` evaluates the guide posterior over `z` exactly
once, draws the `z` of each particle from that same distribution object,
decodes each particle conditioned on the original observed `sex`, `age`,
`ventricle_volume` and `brain_volume`, and returns the elementwise mean of
the decodes; with one particle this equals the single-sample decode. -/
theorem reconstruct_particle_mean {ZD : Type} (env : BaseVISEM.SemEnv ZD)
    (x age sex ventricle_volume brain_volume : Tensor) (n : Nat) :
    ((BaseVISEM.reconstruct env x age sex ventricle_volume brain_volume n).2.1 = 1) ∧
    ((BaseVISEM.reconstruct env x age sex ventricle_volume brain_volume n).2.2 =
      (List.range n).map (fun i =>
        [("sex", sex), ("age", age), ("ventricle_volume", ventricle_volume),
         ("brain_volume", brain_volume),
         ("z", env.draw (env.guide_z_dist
           [("x", x), ("sex", sex), ("age", age),
            ("ventricle_volume", ventricle_volume),
            ("brain_volume", brain_volume)]) i)])) ∧
    ((BaseVISEM.reconstruct env x age sex ventricle_volume brain_volume n).1 =
      BaseVISEM.stackMean
        (((BaseVISEM.reconstruct env x age sex ventricle_volume brain_volume n).2.2).map
          (fun d => env.sample_cond d (env.shape0 x)))) ∧
    (n = 1 →
      (BaseVISEM.reconstruct env x age sex ventricle_volume brain_volume n).1 =
        env.sample_cond
          [("sex", sex), ("age", age), ("ventricle_volume", ventricle_volume),
           ("brain_volume", brain_volume),
           ("z", env.draw (env.guide_z_dist
             [("x", x), ("sex", sex), ("age", age),
              ("ventricle_volume", ventricle_volume),
              ("brain_volume", brain_volume)]) 0)] (env.shape0 x)) := by
  refine ⟨rfl, rfl, rfl, ?_⟩
  intro h
  subst h
  exact stackMean_singleton _

/-- Claim C8 witness: on concrete inputs with one particle, the guide
posterior is evaluated once and the returned reconstruction is the single
decode. -/
theorem reconstruct_particle_mean_witness :
    ((BaseVISEM.reconstruct wEnv tzero tzero tzero tzero tzero 1).2.1 = 1) ∧
    ((BaseVISEM.reconstruct wEnv tzero tzero tzero tzero tzero 1).1 =
      wEnv.sample_cond
        [("sex", tzero), ("age", tzero), ("ventricle_volume", tzero),
         ("brain_volume", tzero),
         ("z", wEnv.draw (wEnv.guide_z_dist
           [("x", tzero), ("sex", tzero), ("age", tzero),
            ("ventricle_volume", tzero), ("brain_volume", tzero)]) 0)]
        (wEnv.shape0 tzero)) := by
  have h := reconstruct_particle_mean wEnv tzero tzero tzero tzero tzero 1
  exact ⟨h.1, h.2.2.2 rfl⟩

/-- Claim C10: `validation_step` and `test_step` behave identically, use
the same `prep_batch` preprocessing and the same trace-metrics extraction
as `training_step`, leave the parameters untouched, and return the mapping
`{loss: loss, **metrics}`. -/
theorem val_test_loss_only (env : SVIExperiment.SVIEnv) (noise : Tensor)
    (s : SVIExperiment.ExpState) (batch : SVIExperiment.RawBatch) :
    SVIExperiment.validation_step env noise s batch =
      SVIExperiment.test_step env noise s batch ∧
    (SVIExperiment.validation_step env noise s batch).1.svi.params =
      s.svi.params ∧
    (SVIExperiment.test_step env noise s batch).1.svi.params =
      s.svi.params ∧
    (SVIExperiment.validation_step env noise s batch).2 =
      Except.ok
        (("loss", (env.runLoss (SVIExperiment.prep_batch noise batch)).2.2) ::
          (SVIExperiment.trace_metrics
            (env.runLoss (SVIExperiment.prep_batch noise batch)).1
            (env.runLoss (SVIExperiment.prep_batch noise batch)).1).map
            (fun p => (p.1, some p.2))) := by
  refine ⟨rfl, rfl, rfl, rfl⟩

end DeepSCM
